import Mathlib

/-!
Shallow embedding of the user-CRUD HTTP API (Express + Mongoose) found in
`src/`: the auth middleware, the error middleware, the express-validator
chain on `username`, and the five user routes, together with a model of the
document store whose `username` field carries a unique index
(`src/mongodb.ts`).  Timestamps are naturals (milliseconds), store
identifiers are strings (ObjectId hex strings).
-/

namespace Assignment

/-! ### Data model -/

/-- A stored user document: `_id`, `username`, `joined_at` (`src/mongodb.ts`). -/
structure User where
  id : String
  username : String
  joined_at : Nat
deriving Repr, DecidableEq

/-- The document store: the collection of user documents. -/
structure Store where
  users : List User
deriving Repr, DecidableEq

/-- The responses the handlers produce: `res.status(..).json(..)` bodies, or
the empty body of `res.status(204).send()`. -/
inductive Body where
  | empty
  | message (s : String)
  | errorsMsg (s : String)
  | userResult (u : User)
  | listResult (l : List User)
deriving Repr, DecidableEq

/-- An HTTP response: status code and body. -/
structure Response where
  status : Nat
  body : Body
deriving Repr, DecidableEq

/-! ### Input validator (`express-validator` chain in `src/unnamed/part_005`)

The chain is `body("username").notEmpty().withMessage("Username is empty.").trim().escape()`.
express-validator runs the items in declaration order: `notEmpty` validates
the raw value (a missing field is coerced to the empty string and fails,
since `notEmpty` checks plain length with `ignore_whitespace` off), and the
`trim` and `escape` sanitizers run afterwards, producing the value that
`matchedData` returns to the handler. -/

/-- validator.js `escape` on one character: replaces ampersand, double quote,
single quote, angle brackets, slash, backslash and backquote by HTML
entities, leaving every other character unchanged. -/
def escapeChar (c : Char) : String :=
  if c = '&' then "&amp;"
  else if c = Char.ofNat 34 then "&quot;"
  else if c = Char.ofNat 39 then "&#x27;"
  else if c = '<' then "&lt;"
  else if c = '>' then "&gt;"
  else if c = '/' then "&#x2F;"
  else if c = '\\' then "&#x5C;"
  else if c = Char.ofNat 96 then "&#96;"
  else String.singleton c

/-- validator.js `escape` applied to a whole string (character by
character, on the underlying character list). -/
def escape (s : String) : String :=
  String.mk ((s.data.map (fun c => (escapeChar c).data)).flatten)

/-- JavaScript `String.prototype.trim`, on the character list: strips
leading and trailing whitespace. -/
def jsTrim (s : String) : String :=
  String.mk (((s.data.dropWhile Char.isWhitespace).reverse.dropWhile
    Char.isWhitespace).reverse)

/-- JavaScript `String.prototype.toLowerCase`, on the character list. -/
def jsToLower (s : String) : String :=
  String.mk (s.data.map Char.toLower)

/-- The `username` validation chain. `raw = none` is a missing field.
`notEmpty` runs first, on the untrimmed value; on success the sanitized
value is the trimmed then escaped input. -/
def validateUsername (raw : Option String) : Except String String :=
  let v := raw.getD ""
  if v = "" then Except.error "Username is empty."
  else Except.ok (escape (jsTrim v))

/-! ### Store operations

The store enforces the unique index on `username` declared in
`src/mongodb.ts` (`username: { type: String, unique: true }`, with
`autoIndex: true` on the connection): any write that would leave two
documents with the same `username` fails with a duplicate-key error
(`MongoServerError`, code 11000). -/

/-- The store-level error: the duplicate-key signal of the unique index. -/
inductive StoreError where
  | duplicateKey
deriving Repr, DecidableEq

/-- Whether some stored user already has this username. -/
def Store.hasUsername (s : Store) (name : String) : Bool :=
  s.users.any (fun u => u.username == name)

/-- `new User({username}).save()`: inserts a fresh document whose `_id` is the
store-generated identifier `newId` and whose `joined_at` defaults to the
current time; rejected by the unique index when the username exists. -/
def Store.insertUser (s : Store) (newId : String) (name : String) (now : Nat) :
    Except StoreError (User × Store) :=
  if s.hasUsername name then Except.error StoreError.duplicateKey
  else
    let u : User := { id := newId, username := name, joined_at := now }
    Except.ok (u, { users := s.users ++ [u] })

/-- `User.findById(id)`: the document with this identifier, if any. -/
def Store.findById (s : Store) (id : String) : Option User :=
  s.users.find? (fun u => u.id == id)

/-- `User.findByIdAndUpdate(id, {username})`: updates only the `username`
field of the matching document and returns the document as it was before the
update (`none` when no document matches).  The unique index rejects the
write when a different document already holds the new username. -/
def Store.findByIdAndUpdate (s : Store) (id : String) (name : String) :
    Except StoreError (Option User × Store) :=
  match s.findById id with
  | none => Except.ok (none, s)
  | some u =>
    if s.users.any (fun v => !(v.id == id) && v.username == name) then
      Except.error StoreError.duplicateKey
    else
      Except.ok (some u,
        { users := s.users.map
            (fun v => if v.id = id then { v with username := name } else v) })

/-- `User.findByIdAndDelete(id)`: removes the matching document and returns
its former contents (`none` when no document matches). -/
def Store.findByIdAndDelete (s : Store) (id : String) : Option User × Store :=
  match s.findById id with
  | none => (none, s)
  | some u => (some u, { users := s.users.eraseP (fun v => v.id == id) })

/-- The store invariant of `src/mongodb.ts`: no two stored users share a
username (case-sensitive exact match). -/
def Store.UniqueUsernames (s : Store) : Prop :=
  (s.users.map User.username).Nodup

/-! ### Error middleware (`src/middlewares.ts`, `errorMiddleware`) -/

/-- A JavaScript error as the error middleware inspects it: its `name`, its
optional numeric `code`, and its message. -/
structure JsError where
  name : String
  code : Option Int
  message : String
deriving Repr, DecidableEq

/-- `errorMiddleware`: a `MongoServerError` with code 11000 becomes 409;
every other error becomes a generic 500 whose body is a fixed string. -/
def errorMiddleware (err : JsError) : Response :=
  if err.name = "MongoServerError" ∧ err.code = some 11000 then
    { status := 409, body := Body.message "A user with this name already exists." }
  else
    { status := 500, body := Body.message "Something went wrong." }

/-- The duplicate-key error the store raises on a unique-index violation. -/
def mongoDuplicateKeyError : JsError :=
  { name := "MongoServerError", code := some 11000
    message := "E11000 duplicate key error collection" }

/-! ### Auth middleware (`src/middlewares.ts`, `authMiddleware`) -/

/-- A decoded token payload: the claims the middleware inspects. -/
structure Payload where
  role : String
  expires_at : Int
deriving Repr, DecidableEq

/-- Outcome of the auth middleware on one request: a rejection response, or
control passing to the downstream handler (`next()`). -/
inductive AuthResult where
  | reject (status : Nat) (message : String)
  | proceed
deriving Repr, DecidableEq

/-- JavaScript `String.prototype.split` with a one-character separator, on
the character list: `"a b".split(" ") = ["a","b"]`, `"ab".split(" ") = ["ab"]`,
`"".split(" ") = [""]`, `"a  b".split(" ") = ["a","","b"]`. -/
def splitChar (sep : Char) : List Char → List (List Char)
  | [] => [[]]
  | c :: cs =>
    let r := splitChar sep cs
    if c = sep then [] :: r
    else
      match r with
      | [] => [[c]]
      | x :: xs => (c :: x) :: xs

/-- `header.split(" ")[1]`: the second whitespace-delimited segment of the
authorization header, absent when the header holds no space. -/
def extractToken (h : String) : Option String :=
  ((splitChar ' ' h.data).map (fun l => String.mk l))[1]?

/-- `authMiddleware`.  `verify` abstracts `jwt.verify` with the configured
secret: `none` is the error branch of the callback.  When the extracted
segment is absent (`header.split(" ")[1]` is `undefined`), `jwt.verify`
invokes its callback with an error (`jwt must be provided`), so that case
lands in the same 401 branch.  An absent or empty header value is falsy and
is rejected as missing.  The checks run in source order: signature, then
role, then the `expires_at` comparison against `Date.now()`. -/
def authMiddleware (verify : String → Option Payload) (now : Int)
    (header : Option String) : AuthResult :=
  match header with
  | none => AuthResult.reject 401 "Authorization token is required."
  | some h =>
    if h = "" then AuthResult.reject 401 "Authorization token is required."
    else
      match extractToken h with
      | none => AuthResult.reject 401 "Authorization token is invalid."
      | some tok =>
        match verify tok with
        | none => AuthResult.reject 401 "Authorization token is invalid."
        | some data =>
          if data.role ≠ "admin" then
            AuthResult.reject 403 "Role must be admin to perform this action."
          else if data.expires_at < now then
            AuthResult.reject 403 "Authorization token has expired."
          else AuthResult.proceed

/-! ### Token issuance (`router.post("/login")`) -/

/-- The payload signed by the login route: role fixed to `admin`,
`expires_at` set to `Date.now() + 300 * 1000`. -/
def loginPayload (now : Int) : Payload :=
  { role := "admin", expires_at := now + 300 * 1000 }

/-! ### GET /users: pagination and sorting

`router.get("/users")` lowercases the `order` query parameter, then queries
`User.find().sort({joined_at: order === "asc" ? "asc" : "desc"})
.skip(isNaN(Number(offset)) ? 0 : Number(offset))
.limit(isNaN(Number(limit)) ? 10 : Number(limit))`.
The `offset` and `limit` parameters enter the model as the result of the
JavaScript `Number(...)` conversion of the query string, `none` standing for
`NaN` (a missing parameter converts to `NaN`); for a decimal integer string
such as `"-5"` the conversion yields the integer it denotes. -/

/-- A sort direction. -/
inductive SortDir where
  | asc
  | desc
deriving Repr, DecidableEq

/-- Ascending comparison on `joined_at`. -/
def joinedAsc (u v : User) : Prop := u.joined_at ≤ v.joined_at

/-- Descending comparison on `joined_at`. -/
def joinedDesc (u v : User) : Prop := v.joined_at ≤ u.joined_at

instance : DecidableRel joinedAsc := fun u v => Nat.decLe u.joined_at v.joined_at

instance : DecidableRel joinedDesc := fun u v => Nat.decLe v.joined_at u.joined_at

instance : IsTotal User joinedAsc := ⟨fun u v => Nat.le_total u.joined_at v.joined_at⟩

instance : IsTotal User joinedDesc := ⟨fun u v => Nat.le_total v.joined_at u.joined_at⟩

instance : IsTrans User joinedAsc := ⟨fun _ _ _ => Nat.le_trans⟩

instance : IsTrans User joinedDesc := ⟨fun _ _ _ h h2 => Nat.le_trans h2 h⟩

/-- `req.query.order?.toString().toLowerCase()` followed by
`order === "asc" ? "asc" : "desc"`. -/
def effectiveOrder (order : Option String) : SortDir :=
  if order.map jsToLower = some "asc" then SortDir.asc else SortDir.desc

/-- `isNaN(Number(offset)) ? 0 : Number(offset)`. -/
def effectiveOffset (offset : Option Int) : Int := offset.getD 0

/-- `isNaN(Number(limit)) ? 10 : Number(limit)`. -/
def effectiveLimit (limit : Option Int) : Int := limit.getD 10

/-- The argument triple the route hands to the store query:
sort direction, skip count and limit count. -/
structure ListArgs where
  dir : SortDir
  skip : Int
  limit : Int
deriving Repr, DecidableEq

/-- The store-call arguments built by `router.get("/users")` from the raw
query parameters. -/
def listStoreArgs (order : Option String) (offset limit : Option Int) : ListArgs :=
  { dir := effectiveOrder order
    skip := effectiveOffset offset
    limit := effectiveLimit limit }

/-- The store sort on `joined_at` in the given direction (a stable sort, as
the store's). -/
def sortByJoined (dir : SortDir) (l : List User) : List User :=
  match dir with
  | SortDir.asc => l.insertionSort joinedAsc
  | SortDir.desc => l.insertionSort joinedDesc

/-- The user list `router.get("/users")` returns: the stored users sorted by
`joined_at` in the effective direction, then paginated by skip and limit
(clamping negative counts to zero, which only matters past the sort). -/
def listUsersResult (s : Store) (order : Option String) (offset limit : Option Int) :
    List User :=
  (((sortByJoined (effectiveOrder order) s.users).drop
      (effectiveOffset offset).toNat).take (effectiveLimit limit).toNat)

/-- `router.get("/users")`: always a 200 carrying the paginated result. -/
def listUsersHandler (s : Store) (order : Option String) (offset limit : Option Int) :
    Response :=
  { status := 200, body := Body.listResult (listUsersResult s order offset limit) }

/-! ### POST /users, GET/PUT/DELETE /users/:id handlers

Each protected route runs behind `authMiddleware`; the handlers below model
the handler body that runs once the middleware has called `next()`.  A store
duplicate-key error is thrown by `await`, caught, and forwarded with
`next(e)` to `errorMiddleware`, whose response is inlined here. -/

/-- `mongoose.Types.ObjectId.isValid` on a string: any 12-character string,
or a 24-character hexadecimal string. -/
def isValidObjectId (s : String) : Bool :=
  s.length = 12 ||
    (s.length = 24 && s.data.all (fun c => c.isDigit || "abcdefABCDEF".data.contains c))

/-- `router.post("/users")` body (after auth): validation failure is a 400
with the single aggregate message; otherwise the sanitized username is
persisted with `joined_at` defaulted to now, a duplicate username becomes
the error middleware's 409, and success is a 201 with the created document. -/
def createUserHandler (s : Store) (newId : String) (rawUsername : Option String)
    (now : Nat) : Response × Store :=
  match validateUsername rawUsername with
  | Except.error _ => ({ status := 400, body := Body.errorsMsg "Username is invalid." }, s)
  | Except.ok name =>
    match s.insertUser newId name now with
    | Except.error StoreError.duplicateKey => (errorMiddleware mongoDuplicateKeyError, s)
    | Except.ok (u, s2) => ({ status := 201, body := Body.userResult u }, s2)

/-- `router.get("/users/:id")`: 400 on a structurally invalid id before any
store access, 404 when no document matches, otherwise 200 with the document. -/
def getUserByIdHandler (s : Store) (id : Option String) : Response :=
  if ¬ isValidObjectId (id.getD "") then
    { status := 400, body := Body.message "Invalid ID." }
  else
    match s.findById (id.getD "") with
    | none => { status := 404, body := Body.message "No user with this ID found." }
    | some u => { status := 200, body := Body.userResult u }

/-- `router.put("/users/:id")` body (after auth): id-format check first, then
the validation result, then `findByIdAndUpdate`; `null` means 404, success is
an empty 204.  A duplicate-key rejection by the unique index travels through
`next(e)` to the error middleware. -/
def updateUserByIdHandler (s : Store) (id : Option String)
    (rawUsername : Option String) : Response × Store :=
  if ¬ isValidObjectId (id.getD "") then
    ({ status := 400, body := Body.message "Invalid ID." }, s)
  else
    match validateUsername rawUsername with
    | Except.error _ => ({ status := 400, body := Body.errorsMsg "Username is invalid." }, s)
    | Except.ok name =>
      match s.findByIdAndUpdate (id.getD "") name with
      | Except.error StoreError.duplicateKey => (errorMiddleware mongoDuplicateKeyError, s)
      | Except.ok (none, s2) =>
        ({ status := 404, body := Body.errorsMsg "User with given ID not found." }, s2)
      | Except.ok (some _, s2) => ({ status := 204, body := Body.empty }, s2)

/-- `router.delete("/users/:id")` body (after auth): id-format check first,
then `findByIdAndDelete`; `null` means 404, success is a 200 carrying the
deleted document. -/
def deleteUserByIdHandler (s : Store) (id : Option String) : Response × Store :=
  if ¬ isValidObjectId (id.getD "") then
    ({ status := 400, body := Body.message "Invalid ID." }, s)
  else
    match s.findByIdAndDelete (id.getD "") with
    | (none, s2) => ({ status := 404, body := Body.errorsMsg "User with given ID not found." }, s2)
    | (some u, s2) => ({ status := 200, body := Body.userResult u }, s2)

/-! ### Helper lemmas -/

/-- Splitting at a character that does not occur returns the whole list as
the single segment. -/
theorem splitChar_of_not_mem (sep : Char) (l : List Char) (h : sep ∉ l) :
    splitChar sep l = [l] := by
  induction l with
  | nil => rfl
  | cons c cs ih =>
    have hc : ¬ c = sep := fun e => h (e ▸ List.mem_cons_self c cs)
    have hcs : sep ∉ cs := fun e => h (List.mem_cons_of_mem _ e)
    simp [splitChar, hc, ih hcs]

/-- A header without a space yields no second segment. -/
theorem extractToken_eq_none (h : String) (hs : ' ' ∉ h.data) :
    extractToken h = none := by
  unfold extractToken
  rw [splitChar_of_not_mem _ _ hs]
  rfl

/-- Sortedness survives the skip/limit pagination. -/
theorem sorted_take_drop {r : User → User → Prop} {l : List User}
    (h : List.Sorted r l) (m n : Nat) : List.Sorted r ((l.drop m).take n) :=
  h.sublist (((l.drop m).take_sublist n).trans (l.drop_sublist m))

/-- Updating the username of the matching document keeps that document the
one `find?` locates, with only its username changed. -/
theorem find_map_update (l : List User) (idStr name : String) (u : User)
    (hfind : l.find? (fun v => v.id == idStr) = some u) :
    (l.map (fun v => if v.id = idStr then { v with username := name } else v)).find?
        (fun v => v.id == idStr) = some { u with username := name } := by
  induction l with
  | nil => simp at hfind
  | cons w l ih =>
    simp only [List.map_cons]
    by_cases hw : w.id = idStr
    · rw [List.find?_cons_of_pos _ (by simp [hw])] at hfind
      obtain rfl : w = u := Option.some.inj hfind
      rw [if_pos hw]
      exact List.find?_cons_of_pos _ (by simp [hw])
    · rw [List.find?_cons_of_neg _ (by simp [hw])] at hfind
      rw [if_neg hw, List.find?_cons_of_neg _ (by simp [hw])]
      exact ih hfind

/-- Renaming the document carrying a given id to a username no other
document holds keeps the stored usernames pairwise distinct, provided the
ids are pairwise distinct. -/
theorem nodup_usernames_map_update (l : List User) (idStr name : String)
    (hid : (l.map User.id).Nodup) (hun : (l.map User.username).Nodup)
    (hfree : ∀ v ∈ l, v.id ≠ idStr → v.username ≠ name) :
    ((l.map (fun v => if v.id = idStr then { v with username := name } else v)).map
        User.username).Nodup := by
  induction l with
  | nil => simp
  | cons w l ih =>
    simp only [List.map_cons, List.nodup_cons] at hid hun ⊢
    refine ⟨?_, ih hid.2 hun.2 (fun v hv => hfree v (List.mem_cons_of_mem _ hv))⟩
    intro hmem
    rw [List.mem_map] at hmem
    obtain ⟨x, hx, hxe⟩ := hmem
    rw [List.mem_map] at hx
    obtain ⟨v, hv, rfl⟩ := hx
    by_cases hw : w.id = idStr
    · rw [if_pos hw] at hxe
      by_cases hvid : v.id = idStr
      · exact hid.1 (List.mem_map.mpr ⟨v, hv, hvid.trans hw.symm⟩)
      · rw [if_neg hvid] at hxe
        exact hfree v (List.mem_cons_of_mem _ hv) hvid hxe
    · rw [if_neg hw] at hxe
      by_cases hvid : v.id = idStr
      · rw [if_pos hvid] at hxe
        exact hfree w (List.mem_cons_self w l) hw hxe.symm
      · rw [if_neg hvid] at hxe
        exact hun.1 (List.mem_map.mpr ⟨v, hv, hxe⟩)

/-! ### Claim theorems -/

/-- Claim C3: a request whose bearer token verifies with role `admin` but
whose embedded `expires_at` is strictly below the current time is rejected
with 403 (expired token), not 401, and the downstream handler never runs. -/
theorem authMiddleware_expired_forbidden (verify : String → Option Payload) (now : Int)
    (h tok : String) (p : Payload) (hne : h ≠ "") (hex : extractToken h = some tok)
    (hv : verify tok = some p) (hrole : p.role = "admin") (hexp : p.expires_at < now) :
    authMiddleware verify now (some h) = AuthResult.reject 403 "Authorization token has expired."
    ∧ authMiddleware verify now (some h) ≠ AuthResult.proceed := by
  constructor <;> simp [authMiddleware, hne, hex, hv, hrole, hexp]

/-- Witness for C3: a concrete expired admin token is rejected with 403. -/
theorem authMiddleware_expired_forbidden_witness :
    authMiddleware (fun _ => some { role := "admin", expires_at := 4 }) 10 (some "Bearer t")
      = AuthResult.reject 403 "Authorization token has expired."
    ∧ authMiddleware (fun _ => some { role := "admin", expires_at := 4 }) 10 (some "Bearer t")
      ≠ AuthResult.proceed :=
  authMiddleware_expired_forbidden (fun _ => some { role := "admin", expires_at := 4 }) 10
    "Bearer t" "t" { role := "admin", expires_at := 4 } (by decide) rfl rfl rfl (by decide)

/-- Claim C10: an authorization header that is present but holds no space
character yields no second segment, so verification fails and the gate
rejects with 401 (invalid token) — whatever `verify` would say about the
header value itself — and the downstream handler never runs. -/
theorem authMiddleware_noSpace_rejected (verify : String → Option Payload) (now : Int)
    (h : String) (hne : h ≠ "") (hns : ' ' ∉ h.data) :
    extractToken h = none
    ∧ authMiddleware verify now (some h)
        = AuthResult.reject 401 "Authorization token is invalid."
    ∧ authMiddleware verify now (some h) ≠ AuthResult.proceed := by
  have he : extractToken h = none := extractToken_eq_none h hns
  refine ⟨he, ?_, ?_⟩ <;> simp [authMiddleware, hne, he]

/-- Witness for C10: a schemeless header that `verify` itself would accept is
still rejected with 401. -/
theorem authMiddleware_noSpace_rejected_witness :
    extractToken "selftoken" = none
    ∧ authMiddleware (fun _ => some { role := "admin", expires_at := 999999 }) 0
        (some "selftoken") = AuthResult.reject 401 "Authorization token is invalid."
    ∧ authMiddleware (fun _ => some { role := "admin", expires_at := 999999 }) 0
        (some "selftoken") ≠ AuthResult.proceed :=
  authMiddleware_noSpace_rejected (fun _ => some { role := "admin", expires_at := 999999 }) 0
    "selftoken" (by decide) (by decide)

/-- Claim C8: every payload signed by the login route has role `admin` and
`expires_at` equal to issuance time plus 300000 milliseconds. -/
theorem loginPayload_claims (now : Int) :
    (loginPayload now).role = "admin" ∧ (loginPayload now).expires_at = now + 300000 :=
  ⟨rfl, by norm_num [loginPayload]⟩

/-- Claim C7: the error middleware returns 409 exactly for a
`MongoServerError` with duplicate-key code 11000; every other error gets the
fixed generic 500 body, independent of the error's own message. -/
theorem errorMiddleware_mapping (err : JsError) :
    ((errorMiddleware err).status = 409 ↔
      err.name = "MongoServerError" ∧ err.code = some 11000)
    ∧ (¬ (err.name = "MongoServerError" ∧ err.code = some 11000) →
        errorMiddleware err = { status := 500, body := Body.message "Something went wrong." })
    ∧ (err.name = "MongoServerError" ∧ err.code = some 11000 →
        errorMiddleware err
          = { status := 409, body := Body.message "A user with this name already exists." }) := by
  unfold errorMiddleware
  by_cases hc : err.name = "MongoServerError" ∧ err.code = some 11000 <;> simp [hc]

/-- Witness for C7: a duplicate-key error maps to 409; an unrelated error
with a secret-bearing message maps to the fixed 500 body. -/
theorem errorMiddleware_mapping_witness :
    errorMiddleware { name := "MongoServerError", code := some 11000, message := "dup" }
      = { status := 409, body := Body.message "A user with this name already exists." }
    ∧ errorMiddleware { name := "TypeError", code := none, message := "secret detail" }
      = { status := 500, body := Body.message "Something went wrong." } :=
  ⟨(errorMiddleware_mapping
      { name := "MongoServerError", code := some 11000, message := "dup" }).2.2 ⟨rfl, rfl⟩,
   (errorMiddleware_mapping
      { name := "TypeError", code := none, message := "secret detail" }).2.1 (by decide)⟩

/-- Claim C4 counterexample: the query value `-5` (`Number("-5") = -5`, not
`NaN`, and not a valid non-negative integer) is passed to the store as the
limit argument instead of the claimed default 10. -/
theorem listLimit_counterexample :
    (listStoreArgs none none (some (-5))).limit = -5
    ∧ (listStoreArgs none none (some (-5))).limit ≠ 10 := by
  constructor <;> decide

/-- Claim C4 (amended): only a limit whose `Number(...)` conversion is `NaN`
defaults to 10; every converted numeric value — negative or beyond the
documented 5–100 bound included — is passed to the store unmodified. -/
theorem listLimit_passthrough (order : Option String) (offset limit : Option Int) :
    (limit = none → (listStoreArgs order offset limit).limit = 10)
    ∧ (∀ n : Int, limit = some n → (listStoreArgs order offset limit).limit = n) := by
  constructor
  · intro h
    subst h
    rfl
  · intro n h
    subst h
    rfl

/-- Witness for C4 (amended): `NaN` defaults to 10, while 999 — far beyond
the documented bound — passes through unmodified. -/
theorem listLimit_passthrough_witness :
    (listStoreArgs none none none).limit = 10
    ∧ (listStoreArgs none none (some 999)).limit = 999 :=
  ⟨(listLimit_passthrough none none none).1 rfl,
   (listLimit_passthrough none none (some 999)).2 999 rfl⟩

/-- Claim C5: the list route sorts by `joined_at` in the requested direction;
the order parameter counts as ascending exactly when it lowercases to
`"asc"`, every other value (missing or unrecognized included) giving
descending order. -/
theorem listOrder_spec (s : Store) (order : Option String) (offset limit : Option Int) :
    (effectiveOrder order = SortDir.asc ↔ order.map jsToLower = some "asc")
    ∧ (effectiveOrder order = SortDir.asc →
        List.Sorted joinedAsc (listUsersResult s order offset limit))
    ∧ (effectiveOrder order = SortDir.desc →
        List.Sorted joinedDesc (listUsersResult s order offset limit)) := by
  refine ⟨?_, ?_, ?_⟩
  · unfold effectiveOrder
    by_cases hc : order.map jsToLower = some "asc" <;> simp [hc]
  · intro hd
    unfold listUsersResult
    rw [hd]
    exact sorted_take_drop (List.sorted_insertionSort joinedAsc s.users) _ _
  · intro hd
    unfold listUsersResult
    rw [hd]
    exact sorted_take_drop (List.sorted_insertionSort joinedDesc s.users) _ _

/-- Witness for C5: `"ASC"` (uppercase) yields an ascending result and a
missing order parameter yields a descending result, on a concrete store. -/
theorem listOrder_spec_witness :
    List.Sorted joinedAsc (listUsersResult
      { users := [{ id := "a", username := "x", joined_at := 3 },
                  { id := "b", username := "y", joined_at := 1 }] } (some "ASC") none none)
    ∧ List.Sorted joinedDesc (listUsersResult
      { users := [{ id := "a", username := "x", joined_at := 3 },
                  { id := "b", username := "y", joined_at := 1 }] } none none none) :=
  ⟨(listOrder_spec
      { users := [{ id := "a", username := "x", joined_at := 3 },
                  { id := "b", username := "y", joined_at := 1 }] } (some "ASC") none none).2.1
    (by decide),
   (listOrder_spec
      { users := [{ id := "a", username := "x", joined_at := 3 },
                  { id := "b", username := "y", joined_at := 1 }] } none none none).2.2
    (by decide)⟩

/-- Claim C6: all three by-id routes return 400 on a structurally invalid id,
with a response independent of the store contents and the store left
untouched; on a structurally valid id matching no record they return 404
rather than an error (for the update route, once its body validation has
passed). -/
theorem byId_handlers_spec (s : Store) (id : Option String) (rawU : Option String) :
    (isValidObjectId (id.getD "") = false →
      getUserByIdHandler s id = { status := 400, body := Body.message "Invalid ID." }
      ∧ updateUserByIdHandler s id rawU
          = ({ status := 400, body := Body.message "Invalid ID." }, s)
      ∧ deleteUserByIdHandler s id
          = ({ status := 400, body := Body.message "Invalid ID." }, s))
    ∧ (isValidObjectId (id.getD "") = true → s.findById (id.getD "") = none →
      getUserByIdHandler s id
          = { status := 404, body := Body.message "No user with this ID found." }
      ∧ (∀ name, validateUsername rawU = Except.ok name →
          updateUserByIdHandler s id rawU
            = ({ status := 404, body := Body.errorsMsg "User with given ID not found." }, s))
      ∧ deleteUserByIdHandler s id
          = ({ status := 404, body := Body.errorsMsg "User with given ID not found." }, s)) := by
  constructor
  · intro hbad
    refine ⟨?_, ?_, ?_⟩ <;>
      simp [getUserByIdHandler, updateUserByIdHandler, deleteUserByIdHandler, hbad]
  · intro hok hmiss
    refine ⟨?_, ?_, ?_⟩
    · simp [getUserByIdHandler, hok, hmiss]
    · intro name hname
      simp [updateUserByIdHandler, Store.findByIdAndUpdate, hok, hname, hmiss]
    · simp [deleteUserByIdHandler, Store.findByIdAndDelete, hok, hmiss]

/-- Witness for C6: a malformed id gives 400 on the empty store; a
well-formed 12-character id absent from the store gives 404. -/
theorem byId_handlers_spec_witness :
    getUserByIdHandler { users := [] } (some "xyz")
      = { status := 400, body := Body.message "Invalid ID." }
    ∧ getUserByIdHandler { users := [] } (some "111111111111")
      = { status := 404, body := Body.message "No user with this ID found." } :=
  ⟨((byId_handlers_spec { users := [] } (some "xyz") none).1 (by decide)).1,
   ((byId_handlers_spec { users := [] } (some "111111111111") none).2
      (by decide) (by decide)).1⟩

/-- Claim C1 counterexample: a whitespace-only username is empty after
trimming, yet `notEmpty` runs before the `trim` sanitizer, so creation
succeeds with 201 and persists the empty string. -/
theorem create_whitespace_counterexample :
    validateUsername (some "   ") = Except.ok ""
    ∧ (createUserHandler { users := [] } "000000000000" (some "   ") 0).1.status = 201
    ∧ (createUserHandler { users := [] } "000000000000" (some "   ") 0).2.users
        = [{ id := "000000000000", username := "", joined_at := 0 }] := by
  refine ⟨rfl, ?_, ?_⟩ <;> decide

/-- Claim C1 (amended): on both the create and the update route the username
must be present and non-empty before trimming; a violation yields a 400 with
the single aggregate message and leaves the store untouched; on success the
persisted value is the trimmed then HTML-escaped input (possibly empty when
the input was whitespace-only). -/
theorem create_validation_spec (s : Store) (newId : String) (raw : Option String)
    (now : Nat) :
    (raw.getD "" = "" →
      (createUserHandler s newId raw now).1
          = { status := 400, body := Body.errorsMsg "Username is invalid." }
      ∧ (createUserHandler s newId raw now).2 = s)
    ∧ (∀ v, raw = some v → v ≠ "" → s.hasUsername (escape (jsTrim v)) = false →
        (createUserHandler s newId raw now).1.status = 201
        ∧ (createUserHandler s newId raw now).2.users
            = s.users ++ [{ id := newId, username := escape (jsTrim v), joined_at := now }])
    ∧ (raw.getD "" = "" → ∀ idStr, isValidObjectId idStr = true →
        updateUserByIdHandler s (some idStr) raw
          = ({ status := 400, body := Body.errorsMsg "Username is invalid." }, s))
    ∧ (∀ v, raw = some v → v ≠ "" → ∀ idStr u, isValidObjectId idStr = true →
        s.findById idStr = some u →
        (∀ w ∈ s.users, w.id ≠ idStr → w.username ≠ escape (jsTrim v)) →
        (updateUserByIdHandler s (some idStr) raw).2.findById idStr
          = some { id := u.id, username := escape (jsTrim v), joined_at := u.joined_at }) := by
  refine ⟨?_, ?_, ?_, ?_⟩
  · intro hempty
    constructor <;> simp [createUserHandler, validateUsername, hempty]
  · intro v hv hvne hfresh
    subst hv
    constructor <;>
      simp [createUserHandler, validateUsername, hvne, Store.insertUser, hfresh]
  · intro hempty idStr hval
    simp [updateUserByIdHandler, validateUsername, hempty, hval]
  · intro v hv hvne idStr u hval hfind hfree
    subst hv
    have hok : validateUsername (some v) = Except.ok (escape (jsTrim v)) := by
      simp [validateUsername, hvne]
    have hany : s.users.any
        (fun w => !(w.id == idStr) && w.username == escape (jsTrim v)) = false := by
      rw [List.any_eq_false]
      intro w hw
      by_cases hwid : w.id = idStr
      · simp [hwid]
      · simp [hwid, hfree w hw hwid]
    have hred : updateUserByIdHandler s (some idStr) (some v)
        = ({ status := 204, body := Body.empty },
           { users := s.users.map (fun w =>
               if w.id = idStr then { w with username := escape (jsTrim v) } else w) }) := by
      simp [updateUserByIdHandler, Store.findByIdAndUpdate, hval, hok, hfind, hany]
    rw [hred]
    exact find_map_update s.users idStr (escape (jsTrim v)) u hfind

/-- Witness for C1 (amended): a missing username gives the aggregate 400; an
angle-bracketed username is persisted trimmed and escaped, by create and by
update alike. -/
theorem create_validation_spec_witness :
    (createUserHandler { users := [] } "000000000000" none 0).1
        = { status := 400, body := Body.errorsMsg "Username is invalid." }
    ∧ (createUserHandler { users := [] } "000000000000" (some " <Ann> ") 0).2.users
        = [{ id := "000000000000", username := "&lt;Ann&gt;", joined_at := 0 }]
    ∧ (updateUserByIdHandler
        { users := [{ id := "000000000000", username := "Bea", joined_at := 7 }] }
        (some "000000000000") (some " <Ann> ")).2.findById "000000000000"
      = some { id := "000000000000", username := "&lt;Ann&gt;", joined_at := 7 } := by
  refine ⟨((create_validation_spec { users := [] } "000000000000" none 0).1 rfl).1, ?_, ?_⟩
  · have h := ((create_validation_spec { users := [] } "000000000000" (some " <Ann> ") 0).2.1
        " <Ann> " rfl (by decide) (by decide)).2
    exact h
  · have h := (create_validation_spec
        { users := [{ id := "000000000000", username := "Bea", joined_at := 7 }] }
        "ignored" (some " <Ann> ") 0).2.2.2 " <Ann> " rfl (by decide) "000000000000"
        { id := "000000000000", username := "Bea", joined_at := 7 }
        (by decide) rfl (by decide)
    exact h

/-- Claim C9: an update that matches an existing user responds 204 with an
empty body, and the stored document afterwards carries the new username with
its `id` and `joined_at` exactly as before; every non-matching user is left
in the store untouched. -/
theorem updateById_frame (s : Store) (idStr : String) (rawU : Option String)
    (name : String) (u : User)
    (hval : isValidObjectId idStr = true)
    (hname : validateUsername rawU = Except.ok name)
    (hfind : s.findById idStr = some u)
    (hfree : ∀ v ∈ s.users, v.id ≠ idStr → v.username ≠ name) :
    (updateUserByIdHandler s (some idStr) rawU).1 = { status := 204, body := Body.empty }
    ∧ (updateUserByIdHandler s (some idStr) rawU).2.findById idStr
        = some { id := u.id, username := name, joined_at := u.joined_at }
    ∧ ∀ v ∈ s.users, v.id ≠ idStr →
        v ∈ (updateUserByIdHandler s (some idStr) rawU).2.users := by
  have hany : s.users.any (fun v => !(v.id == idStr) && v.username == name) = false := by
    rw [List.any_eq_false]
    intro v hv
    by_cases hvid : v.id = idStr
    · simp [hvid]
    · simp [hvid, hfree v hv hvid]
  have hred : updateUserByIdHandler s (some idStr) rawU
      = ({ status := 204, body := Body.empty },
         { users := s.users.map
             (fun v => if v.id = idStr then { v with username := name } else v) }) := by
    simp [updateUserByIdHandler, Store.findByIdAndUpdate, hval, hname, hfind, hany]
  refine ⟨by rw [hred], ?_, ?_⟩
  · rw [hred]
    exact find_map_update s.users idStr name u hfind
  · intro v hv hne
    rw [hred]
    have he : (fun w => if w.id = idStr then { w with username := name } else w) v = v := by
      simp [hne]
    exact he ▸ List.mem_map_of_mem _ hv

/-- Witness for C9: renaming the only stored user responds 204 and leaves its
id and `joined_at` unchanged. -/
theorem updateById_frame_witness :
    (updateUserByIdHandler
        { users := [{ id := "000000000000", username := "Ann", joined_at := 7 }] }
        (some "000000000000") (some "Anne")).1 = { status := 204, body := Body.empty }
    ∧ (updateUserByIdHandler
        { users := [{ id := "000000000000", username := "Ann", joined_at := 7 }] }
        (some "000000000000") (some "Anne")).2.findById "000000000000"
      = some { id := "000000000000", username := "Anne", joined_at := 7 } := by
  have h := updateById_frame
    { users := [{ id := "000000000000", username := "Ann", joined_at := 7 }] }
    "000000000000" (some "Anne") "Anne"
    { id := "000000000000", username := "Ann", joined_at := 7 }
    (by decide) rfl rfl (by decide)
  exact ⟨h.1, h.2.1⟩

/-- Claim C2: on a store whose usernames and ids are pairwise distinct, every
write (create, update, delete) preserves username uniqueness; after a
successful create, a second create with the identical username is rejected
with the duplicate-key conflict; and a create with a fresh username
succeeds — the uniqueness constraint sitting in the store operations, not in
the handlers. -/
theorem usernameUnique_spec (s : Store) (hU : s.UniqueUsernames)
    (hid : (s.users.map User.id).Nodup) :
    (∀ newId name now u s2, s.insertUser newId name now = Except.ok (u, s2) →
        s2.UniqueUsernames)
    ∧ (∀ idStr name r s2, s.findByIdAndUpdate idStr name = Except.ok (r, s2) →
        s2.UniqueUsernames)
    ∧ (∀ idStr, ((s.findByIdAndDelete idStr).2).UniqueUsernames)
    ∧ (∀ id1 id2 name now now2 u s2, s.insertUser id1 name now = Except.ok (u, s2) →
        s2.insertUser id2 name now2 = Except.error StoreError.duplicateKey)
    ∧ (∀ newId name now, s.hasUsername name = false →
        s.insertUser newId name now
          = Except.ok ({ id := newId, username := name, joined_at := now },
              { users := s.users ++ [{ id := newId, username := name, joined_at := now }] })) := by
  have hinsert : ∀ newId name now u s2,
      s.insertUser newId name now = Except.ok (u, s2) →
      s.hasUsername name = false
      ∧ u = { id := newId, username := name, joined_at := now }
      ∧ s2 = { users := s.users ++ [{ id := newId, username := name, joined_at := now }] } := by
    intro newId name now u s2 h
    by_cases hdup : s.hasUsername name = true
    · simp [Store.insertUser, hdup] at h
    · have hdup2 : s.hasUsername name = false := by simpa using hdup
      simp [Store.insertUser, hdup2] at h
      exact ⟨hdup2, h.1.symm, h.2.symm⟩
  refine ⟨?_, ?_, ?_, ?_, ?_⟩
  · intro newId name now u s2 h
    obtain ⟨hdup2, -, rfl⟩ := hinsert newId name now u s2 h
    have hnotin : name ∉ s.users.map User.username := by
      intro hmem
      rw [List.mem_map] at hmem
      obtain ⟨v, hv, hve⟩ := hmem
      have := List.any_eq_false.mp hdup2 v hv
      simp [hve] at this
    rw [Store.UniqueUsernames]
    simp only [List.map_append, List.map_cons, List.map_nil]
    rw [List.nodup_append]
    exact ⟨hU, List.nodup_singleton _, by simpa [List.disjoint_right] using hnotin⟩
  · intro idStr name r s2 h
    rw [Store.findByIdAndUpdate] at h
    cases hfind : s.findById idStr with
    | none =>
      rw [hfind] at h
      simp only [Except.ok.injEq, Prod.mk.injEq] at h
      exact h.2 ▸ hU
    | some u =>
      rw [hfind] at h
      by_cases hany : s.users.any (fun v => !(v.id == idStr) && v.username == name) = true
      · simp [hany] at h
      · have hany2 : s.users.any (fun v => !(v.id == idStr) && v.username == name) = false := by
          simpa using hany
        simp only [hany2, Bool.false_eq_true, if_false, Except.ok.injEq, Prod.mk.injEq] at h
        have hfree : ∀ v ∈ s.users, v.id ≠ idStr → v.username ≠ name := by
          intro v hv hvid hvn
          have := List.any_eq_false.mp hany2 v hv
          simp [hvid, hvn] at this
        exact h.2 ▸ nodup_usernames_map_update s.users idStr name hid hU hfree
  · intro idStr
    rw [Store.findByIdAndDelete]
    cases hfind : s.findById idStr with
    | none => exact hU
    | some u =>
      rw [Store.UniqueUsernames]
      exact hU.sublist ((List.eraseP_sublist s.users).map User.username)
  · intro id1 id2 name now now2 u s2 h
    obtain ⟨-, -, rfl⟩ := hinsert id1 name now u s2 h
    have : Store.hasUsername
        { users := s.users ++ [{ id := id1, username := name, joined_at := now }] } name
          = true := by
      simp [Store.hasUsername]
    simp [Store.insertUser, this]
  · intro newId name now hfresh
    simp [Store.insertUser, hfresh]

/-- Witness for C2: on the empty store, creating `Ann` succeeds and creating
`Ann` again is rejected with the duplicate-key conflict. -/
theorem usernameUnique_spec_witness :
    ({ users := [] } : Store).insertUser "a" "Ann" 0
      = Except.ok ({ id := "a", username := "Ann", joined_at := 0 },
          { users := [{ id := "a", username := "Ann", joined_at := 0 }] })
    ∧ ({ users := [{ id := "a", username := "Ann", joined_at := 0 }] } : Store).insertUser
        "b" "Ann" 1 = Except.error StoreError.duplicateKey := by
  have h5 := (usernameUnique_spec { users := [] } (by rw [Store.UniqueUsernames]; decide) (by decide)).2.2.2.2
    "a" "Ann" 0 (by decide)
  have h4 := (usernameUnique_spec { users := [] } (by rw [Store.UniqueUsernames]; decide) (by decide)).2.2.2.1
    "a" "b" "Ann" 0 1 _ _ h5
  exact ⟨h5, h4⟩

end Assignment
